import Mathlib

/-!
Shallow embedding of the authentication flow of this repository
(`src/auth/routers/auth.py`, `src/auth/database.py`, `src/auth/schemas.py`):
password hashing and verification, JWT issuance and verification, the
`authenticate_user` / `get_current_user` dependencies and the registration
and login routes.  Machine time is modelled as Unix seconds (`Nat`);
fallible Python code (raising `HTTPException` / library errors) is modelled
with `Except`.
-/

deriving instance DecidableEq for Except

/-- Model of `fastapi.HTTPException`: status code plus detail string (the
`WWW-Authenticate` header carries no information relevant to the claims). -/
structure HTTPException where
  status : Nat
  detail : String
deriving DecidableEq, Repr

/-- Model of `schemas.TokenData`: the decoded token payload returned by `verify_token`. -/
structure TokenData where
  username : Option String
  user_id : Option Int
deriving DecidableEq, Repr

/-- The JWT payload produced by `create_access_token`: the caller-supplied
claims (`sub`, `user_id`) plus `exp`, `iat` and `type` added in lines 40-44
of `auth.py`.  Times are Unix seconds, as PyJWT serialises datetimes. -/
structure Claims where
  sub : Option String
  user_id : Option Int
  exp : Nat
  iat : Nat
  type : String
deriving DecidableEq, Repr

/-- The claims dict passed into `create_access_token` by the login routes:
`{"sub": user.username, "user_id": user.id}`.  Only the fields the flow
reads are modelled; either may be absent (`payload.get` returns `None`). -/
structure TokenInput where
  sub : Option String
  user_id : Option Int
deriving DecidableEq, Repr

/-- A compact JWS token: header (its `alg` field), payload, signature.
The three base64url segments of the wire format are modelled by their
decoded contents; the signature segment is modelled by the natural number
its bytes denote. -/
structure JWT where
  alg : String
  payload : Claims
  sig : Nat
deriving DecidableEq, Repr

/-- A simple string hash used inside the HMAC model. -/
def strHash (s : String) : Nat :=
  s.data.foldl (fun a c => (a * 131 + c.toNat) % 2 ^ 31) 7

/-- Hash of an optional string (distinguishing `None` from values). -/
def optStrHash : Option String → Nat
  | none => 0
  | some s => strHash s + 1

/-- Hash of an optional integer. -/
def optIntHash : Option Int → Nat
  | none => 0
  | some i => (2 * i.natAbs + if i < 0 then 1 else 0) + 1

/-- HMAC-SHA256 over the serialised claims, modelled as an unspecified
deterministic MAC of the secret and the payload: the proofs use only that
verification recomputes the same function on the same inputs. -/
def hs256 (secret : String) (c : Claims) : Nat :=
  (((strHash secret * 131 + optStrHash c.sub) * 131 + optIntHash c.user_id) * 131
      + c.exp) * 131 + c.iat * 131 + strHash c.type

/-- Model of `SECRET_KEY` (auth.py line 17, default value). -/
def SECRET_KEY : String := "your-super-secret-key-change-in-production"

/-- Model of `ALGORITHM` (auth.py line 18). -/
def ALGORITHM : String := "HS256"

/-- Model of `ACCESS_TOKEN_EXPIRE_MINUTES` (auth.py line 19). -/
def ACCESS_TOKEN_EXPIRE_MINUTES : Nat := 30

/-- Model of `create_access_token` (auth.py lines 31-47).  The function calls
`datetime.utcnow()` twice: once to compute `expire` (line 36/38) and once
for the `iat` claim (line 42); `nowExp` and `nowIat` are those two clock
readings, in order.  `expires_delta` is in seconds. -/
def create_access_token (nowExp nowIat : Nat) (data : TokenInput)
    (expires_delta : Option Nat) : JWT :=
  let expire : Nat :=
    match expires_delta with
    | some d => nowExp + d
    | none => nowExp + ACCESS_TOKEN_EXPIRE_MINUTES * 60
  let payload : Claims :=
    { sub := data.sub, user_id := data.user_id,
      exp := expire, iat := nowIat, type := "access" }
  { alg := ALGORITHM, payload := payload, sig := hs256 SECRET_KEY payload }

/-- Outcomes of `jwt.decode`: `expiredSignature` models
`jwt.ExpiredSignatureError`, `invalidToken` models every other
`jwt.PyJWTError` (bad signature, disallowed algorithm, ...). -/
inductive DecodeError where
  | expiredSignature
  | invalidToken
deriving DecidableEq, Repr

/-- Model of `jwt.decode(token, key, algorithms=algs)`: rejects a header algorithm
outside `algs`, then verifies the signature, then (claim validation) fails
with `ExpiredSignatureError` when `exp <= now`; on success returns the
payload.  Signature verification precedes claim validation, as in PyJWT's
`decode_complete`. -/
def jwtDecode (key : String) (algs : List String) (now : Nat) (t : JWT) :
    Except DecodeError Claims :=
  if t.alg ∉ algs then .error .invalidToken
  else if t.sig ≠ hs256 key t.payload then .error .invalidToken
  else if t.payload.exp ≤ now then .error .expiredSignature
  else .ok t.payload

/-- Model of `verify_token` (auth.py lines 49-67): decodes the token; on
`ExpiredSignatureError` raises HTTP 401 "Token has expired"; on any other
`PyJWTError` returns `None`; if the payload's `sub` is `None` returns
`None`; otherwise returns `TokenData(username, user_id)`. -/
def verify_token (now : Nat) (token : JWT) :
    Except HTTPException (Option TokenData) :=
  match jwtDecode SECRET_KEY [ALGORITHM] now token with
  | .ok payload =>
      match payload.sub with
      | none => .ok none
      | some username => .ok (some { username := some username, user_id := payload.user_id })
  | .error .expiredSignature => .error { status := 401, detail := "Token has expired" }
  | .error .invalidToken => .ok none

/-! ## Password hashing (`database.py`)

`database.py` delegates hashing to passlib's
`CryptContext(schemes=["bcrypt"])`.  The bcrypt primitive itself is outside
this repository; it is modelled from the spec: a one-way digest that embeds
the salt in its output (modular-crest-style `$2b$...` format), so that
`verify` can recompute from the embedded salt, and that raises
`UnknownHashError` when the digest matches no configured scheme.  The fresh
random salt passlib draws on each `hash` call is modelled as an explicit
`salt` argument. -/

/-- Little-endian binary digits of `n` as `'0'`/`'1'` characters.  The first
argument is structural fuel; `n ≤ fuel` suffices since `n` halves each step. -/
def bitsOfAux : Nat → Nat → List Char
  | 0, _ => []
  | fuel + 1, n =>
    if n = 0 then []
    else (if n % 2 = 1 then '1' else '0') :: bitsOfAux fuel (n / 2)

/-- Binary encoding of a natural number used inside the modelled digest. -/
def bitsOf (n : Nat) : List Char := bitsOfAux n n

/-- Numeric value of one digit character. -/
def bitVal (c : Char) : Nat := if c = '1' then 1 else 0

/-- Decode a little-endian digit string back to a natural number. -/
def unbits : List Char → Nat
  | [] => 0
  | c :: cs => bitVal c + 2 * unbits cs

/-- Is `c` a binary digit? -/
def isBit (c : Char) : Bool := c = '0' || c = '1'

/-- Split a character list at its first `'$'`; `none` if there is none. -/
def splitAtDollar : List Char → Option (List Char × List Char)
  | [] => none
  | c :: cs =>
    if c = '$' then some ([], cs)
    else
      match splitAtDollar cs with
      | some (a, b) => some (c :: a, b)
      | none => none

/-- Parse a modelled bcrypt digest `$2b$<salt>$<hash>`: returns the embedded
salt and stored hash, or `none` when the string is not a well-formed digest
(passlib: the hash "could not be identified"). -/
def parseDigest (cs : List Char) : Option (Nat × Nat) :=
  match cs with
  | '$' :: '2' :: 'b' :: '$' :: rest =>
    match splitAtDollar rest with
    | some (saltCs, hashCs) =>
      if saltCs.all isBit && hashCs.all isBit then
        some (unbits saltCs, unbits hashCs)
      else none
    | none => none
  | _ => none

/-- The salted one-way function inside the modelled bcrypt digest. -/
def rawHash (salt : Nat) (p : String) : Nat :=
  p.data.foldl (fun a c => (a * 131 + c.toNat) % 2 ^ 31) (salt % 2 ^ 31)

/-- Character content of the modelled digest: marker, salt, salted hash. -/
def digestChars (salt : Nat) (p : String) : List Char :=
  '$' :: '2' :: 'b' :: '$' :: (bitsOf salt ++ '$' :: bitsOf (rawHash salt p))

/-- Modelled from the spec: passlib `pwd_context.hash` (external to `src/`)
"produces a one-way, salted digest ... salt embedded in output"; the fresh
random salt of each call is the explicit `salt` argument. -/
def pwd_context_hash (salt : Nat) (p : String) : String :=
  String.mk (digestChars salt p)

/-- Modelled from the spec: passlib `pwd_context.verify` (external to
`src/`) "recomputes using the salt embedded in `digest` and compares"; when
the digest matches no configured scheme, passlib raises `UnknownHashError`
(modelled as the `Except.error` case). -/
def pwd_context_verify (p digest : String) : Except String Bool :=
  match parseDigest digest.data with
  | none => .error "UnknownHashError"
  | some (salt, h) => .ok (decide (rawHash salt p = h))

/-! ## The user store (`database.py`)

The SQLite `users` table is modelled as a list of rows; `fetchone` on
`WHERE col = ?` is `List.find?`.  The `UNIQUE` constraints on `email` and
`username` make `INSERT` raise `sqlite3.IntegrityError` on a duplicate. -/

/-- One row of the `users` table (`database.py` lines 14-23). -/
structure UserRecord where
  id : Int
  email : String
  username : String
  hashed_password : String
  is_active : Bool
  created_at : Nat
deriving DecidableEq, Repr

/-- The `users` table contents. -/
abbrev DB := List UserRecord

namespace UserRepository

/-- Model of `UserRepository.get_by_username` (database.py lines 41-49). -/
def get_by_username (db : DB) (username : String) : Option UserRecord :=
  db.find? (fun r => r.username == username)

/-- Model of `UserRepository.get_by_email` (database.py lines 51-59). -/
def get_by_email (db : DB) (email : String) : Option UserRecord :=
  db.find? (fun r => r.email == email)

/-- Model of `UserRepository.get_by_id` (database.py lines 61-69). -/
def get_by_id (db : DB) (user_id : Int) : Option UserRecord :=
  db.find? (fun r => r.id == user_id)

/-- Model of `UserRepository.create_user` (database.py lines 71-83): hashes the
password, INSERTs and returns the fresh id.  `salt` models passlib's fresh
random salt, `newId` the AUTOINCREMENT id, `now` `CURRENT_TIMESTAMP`.  A
duplicate `email` or `username` violates a UNIQUE constraint:
`sqlite3.IntegrityError`, the `Except.error` case. -/
def create_user (db : DB) (email username password : String)
    (salt : Nat) (newId : Int) (now : Nat) : Except String (DB × Int) :=
  let hashed_password := pwd_context_hash salt password
  if (db.any fun r => r.email == email) || (db.any fun r => r.username == username) then
    .error "UNIQUE constraint failed"
  else
    .ok (db ++ [⟨newId, email, username, hashed_password, true, now⟩], newId)

/-- Model of `UserRepository.verify_password` (database.py lines 96-99): a direct
call of `pwd_context.verify`, with no exception handling of its own. -/
def verify_password (plain_password hashed_password : String) : Except String Bool :=
  pwd_context_verify plain_password hashed_password

/-- Model of `UserRepository.username_exists` (database.py lines 101-104). -/
def username_exists (db : DB) (username : String) : Bool :=
  (get_by_username db username).isSome

/-- Model of `UserRepository.email_exists` (database.py lines 106-109). -/
def email_exists (db : DB) (email : String) : Bool :=
  (get_by_email db email).isSome

end UserRepository

/-! ## Authentication flow (`auth.py`, `schemas.py`) -/

/-- Model of `schemas.User`: the public user model, without `hashed_password`. -/
structure User where
  id : Int
  email : String
  username : String
  is_active : Bool
  created_at : Nat
deriving DecidableEq, Repr

/-- Conversion `User(**user_data)`: drop the password hash. -/
def UserRecord.toUser (r : UserRecord) : User :=
  ⟨r.id, r.email, r.username, r.is_active, r.created_at⟩

/-- Model of `authenticate_user` (auth.py lines 70-79): look up by username, return
`None` when absent; return `None` when `verify_password` fails; otherwise
the record.  An exception from `verify_password` propagates. -/
def authenticate_user (db : DB) (username password : String) :
    Except String (Option UserRecord) :=
  match UserRepository.get_by_username db username with
  | none => .ok none
  | some user =>
    match UserRepository.verify_password password user.hashed_password with
    | .error e => .error e
    | .ok false => .ok none
    | .ok true => .ok (some user)

/-- The shared 401 raised by `get_current_user` (auth.py lines 87-91). -/
def credentials_exception : HTTPException :=
  { status := 401, detail := "Could not validate credentials" }

/-- Model of `get_current_user` (auth.py lines 82-104): verify the token (an
`HTTPException` raised there — the expired case — propagates), raise the
credentials exception when verification returns `None` or the username is
`None` or the user no longer exists; otherwise return the user. -/
def get_current_user (db : DB) (now : Nat) (token : JWT) :
    Except HTTPException User :=
  match verify_token now token with
  | .error e => .error e
  | .ok none => .error credentials_exception
  | .ok (some token_data) =>
    match token_data.username with
    | none => .error credentials_exception
    | some username =>
      match UserRepository.get_by_username db username with
      | none => .error credentials_exception
      | some user => .ok user.toUser

/-- Model of `get_optional_current_user` (auth.py lines 118-129): `None` when no
token is supplied; otherwise `get_current_user` with every `HTTPException`
caught and turned into `None`. -/
def get_optional_current_user (db : DB) (now : Nat) (token : Option JWT) :
    Option User :=
  match token with
  | none => none
  | some t =>
    match get_current_user db now t with
    | .error _ => none
    | .ok u => some u

/-- Python `str.lower()` (ASCII-relevant part, as used on usernames). -/
def str_lower (s : String) : String :=
  String.mk (s.data.map Char.toLower)

/-- Model of `UserCreate.validate_username` (schemas.py lines 24-29): reject a
username that is not purely alphanumeric (Python `str.isalnum`, false on
the empty string), and return it lowercased. -/
def validate_username (v : String) : Option String :=
  if !v.data.isEmpty && v.data.all Char.isAlphanum then some (str_lower v) else none

/-- Model of `register_user` (auth.py lines 134-171).  The uniqueness pre-checks and
the INSERT are separate database reads; `dbCheck` is the table state the
existence checks observe and `dbInsert` the state at INSERT time — they
differ exactly when a concurrent registration commits in between.  Any
exception inside the `try` block (in particular `sqlite3.IntegrityError`
from a duplicate key at insert time) is caught and mapped to HTTP 500
"Error creating user". -/
def register_user (dbCheck dbInsert : DB) (email username password : String)
    (salt : Nat) (newId : Int) (now : Nat) : Except HTTPException User :=
  if UserRepository.username_exists dbCheck username then
    .error { status := 400, detail := "Username already registered" }
  else if UserRepository.email_exists dbCheck email then
    .error { status := 400, detail := "Email already registered" }
  else
    match UserRepository.create_user dbInsert email username password salt newId now with
    | .error _ => .error { status := 500, detail := "Error creating user" }
    | .ok (db2, user_id) =>
      match UserRepository.get_by_id db2 user_id with
      | none => .error { status := 500, detail := "Error creating user" }
      | some r => .ok r.toUser

/-- Model of `schemas.Token`: the response of `/auth/token`. -/
structure Token where
  access_token : JWT
  token_type : String
  expires_in : Nat
deriving DecidableEq, Repr

/-- Model of `login_for_access_token` (auth.py lines 173-204): authenticate (an
uncaught exception from passlib would surface as a framework 500), 401 on
bad credentials, 400 on an inactive user, otherwise mint a token for
`{"sub": user.username, "user_id": user.id}` with a 30-minute
`expires_delta`.  `nowExp`/`nowIat` are the two `utcnow()` readings inside
`create_access_token`. -/
def login_for_access_token (db : DB) (nowExp nowIat : Nat)
    (username password : String) : Except HTTPException Token :=
  match authenticate_user db username password with
  | .error e => .error { status := 500, detail := e }
  | .ok none => .error { status := 401, detail := "Incorrect username or password" }
  | .ok (some user) =>
    if !user.is_active then
      .error { status := 400, detail := "Inactive user" }
    else
      .ok { access_token :=
              create_access_token nowExp nowIat
                { sub := some user.username, user_id := some user.id }
                (some (ACCESS_TOKEN_EXPIRE_MINUTES * 60)),
            token_type := "bearer",
            expires_in := ACCESS_TOKEN_EXPIRE_MINUTES * 60 }

/-- A one-user store: `alice` registered with password `secret1` (digest
salted with 3), used as the concrete store in several witnesses. -/
def aliceDB : DB :=
  [⟨1, "alice@example.com", "alice", pwd_context_hash 3 "secret1", true, 0⟩]

/-! ## Helper lemmas about the digest encoding -/

theorem unbits_bitsOfAux (fuel : Nat) :
    ∀ n, n ≤ fuel → unbits (bitsOfAux fuel n) = n := by
  induction fuel with
  | zero =>
    intro n hn
    cases Nat.le_zero.mp hn
    rfl
  | succ fuel ih =>
    intro n hn
    simp only [bitsOfAux]
    by_cases h : n = 0
    · simp [h, unbits]
    · simp only [if_neg h, unbits]
      rw [ih (n / 2) (by omega)]
      rcases Nat.mod_two_eq_zero_or_one n with h2 | h2 <;>
        simp [h2, bitVal] <;> omega

theorem unbits_bitsOf (n : Nat) : unbits (bitsOf n) = n :=
  unbits_bitsOfAux n n (Nat.le_refl n)

theorem bitsOfAux_all_isBit (fuel : Nat) :
    ∀ n, (bitsOfAux fuel n).all isBit = true := by
  induction fuel with
  | zero => intro n; rfl
  | succ fuel ih =>
    intro n
    simp only [bitsOfAux]
    by_cases h : n = 0
    · simp [h]
    · simp only [if_neg h, List.all_cons, ih, Bool.and_true]
      rcases Nat.mod_two_eq_zero_or_one n with h2 | h2 <;> simp [h2, isBit]

theorem bitsOf_all_isBit (n : Nat) : (bitsOf n).all isBit = true :=
  bitsOfAux_all_isBit n n

theorem isBit_ne_dollar {c : Char} (h : isBit c = true) : c ≠ '$' := by
  rcases Bool.or_eq_true_iff.mp h with h0 | h0 <;>
    · intro hEq
      subst hEq
      simp at h0

theorem splitAtDollar_append :
    ∀ (as bs : List Char), (∀ c ∈ as, isBit c = true) →
      splitAtDollar (as ++ '$' :: bs) = some (as, bs) := by
  intro as
  induction as with
  | nil =>
    intro bs _
    rfl
  | cons c cs ih =>
    intro bs h
    have hc : c ≠ '$' := isBit_ne_dollar (h c (List.mem_cons_self c cs))
    simp only [List.cons_append, splitAtDollar, if_neg hc, List.append_eq]
    rw [ih bs (fun d hd => h d (List.mem_cons_of_mem c hd))]

theorem parseDigest_digestChars (salt : Nat) (p : String) :
    parseDigest (digestChars salt p) = some (salt, rawHash salt p) := by
  show parseDigest
      ('$' :: '2' :: 'b' :: '$' :: (bitsOf salt ++ '$' :: bitsOf (rawHash salt p))) =
    some (salt, rawHash salt p)
  simp only [parseDigest]
  rw [splitAtDollar_append _ _
    (fun c hc => List.all_eq_true.mp (bitsOf_all_isBit salt) c hc)]
  simp [bitsOf_all_isBit, unbits_bitsOf]

theorem pwd_context_verify_hash (salt : Nat) (p : String) :
    pwd_context_verify p (pwd_context_hash salt p) = .ok true := by
  show pwd_context_verify p (String.mk (digestChars salt p)) = .ok true
  simp only [pwd_context_verify]
  rw [parseDigest_digestChars]
  simp

theorem pwd_context_hash_inj_salt {s1 s2 : Nat} (p : String) (h : s1 ≠ s2) :
    pwd_context_hash s1 p ≠ pwd_context_hash s2 p := by
  intro hEq
  have hdata : digestChars s1 p = digestChars s2 p := congrArg String.data hEq
  have hparse := congrArg parseDigest hdata
  rw [parseDigest_digestChars, parseDigest_digestChars] at hparse
  simp at hparse
  exact h hparse.1

/-! ## Helper lemmas about token decoding -/

theorem jwtDecode_good (now : Nat) (pl : Claims) (hexp : now < pl.exp) :
    jwtDecode SECRET_KEY [ALGORITHM] now ⟨ALGORITHM, pl, hs256 SECRET_KEY pl⟩ = .ok pl := by
  have h3 : ¬(pl.exp ≤ now) := Nat.not_le.mpr hexp
  simp [jwtDecode, h3]

theorem jwtDecode_pastExp (now : Nat) (pl : Claims) (hexp : pl.exp ≤ now) :
    jwtDecode SECRET_KEY [ALGORITHM] now ⟨ALGORITHM, pl, hs256 SECRET_KEY pl⟩ =
      .error .expiredSignature := by
  simp [jwtDecode, hexp]

theorem jwtDecode_badSig (now : Nat) (pl : Claims) (s : Nat)
    (hs : s ≠ hs256 SECRET_KEY pl) :
    jwtDecode SECRET_KEY [ALGORITHM] now ⟨ALGORITHM, pl, s⟩ = .error .invalidToken := by
  simp [jwtDecode, hs]

theorem verify_token_decode_ok (now : Nat) (t : JWT) (pl : Claims)
    (h : jwtDecode SECRET_KEY [ALGORITHM] now t = .ok pl) :
    verify_token now t =
      match pl.sub with
      | none => .ok none
      | some username => .ok (some ⟨some username, pl.user_id⟩) := by
  delta verify_token
  rw [h]

theorem verify_token_decode_expired (now : Nat) (t : JWT)
    (h : jwtDecode SECRET_KEY [ALGORITHM] now t = .error .expiredSignature) :
    verify_token now t = .error ⟨401, "Token has expired"⟩ := by
  delta verify_token
  rw [h]

theorem verify_token_decode_invalid (now : Nat) (t : JWT)
    (h : jwtDecode SECRET_KEY [ALGORITHM] now t = .error .invalidToken) :
    verify_token now t = .ok none := by
  delta verify_token
  rw [h]

/-! ## The claims -/

/-- C1: for every claims map with a non-null `sub` and a `user_id` and every
`ttl > 0`, decoding the token minted by `create_access_token` with
`verify_token` strictly before `issue_time + ttl` yields the valid outcome
whose claims equal the input's `sub` and `user_id`. -/
theorem C1_issue_then_verify (u : String) (i : Int) (ttl tExp tIat now : Nat)
    (httl : 0 < ttl) (hnow : now < tExp + ttl) :
    verify_token now
        (create_access_token tExp tIat { sub := some u, user_id := some i } (some ttl)) =
      .ok (some { username := some u, user_id := some i }) := by
  exact verify_token_decode_ok now
    ⟨ALGORITHM, ⟨some u, some i, tExp + ttl, tIat, "access"⟩,
      hs256 SECRET_KEY ⟨some u, some i, tExp + ttl, tIat, "access"⟩⟩
    ⟨some u, some i, tExp + ttl, tIat, "access"⟩
    (jwtDecode_good now ⟨some u, some i, tExp + ttl, tIat, "access"⟩ hnow)

set_option maxRecDepth 40000 in
theorem C1_issue_then_verify_witness :
    0 < 1800 ∧ (100 : Nat) < 0 + 1800 ∧
    verify_token 100
        (create_access_token 0 0 { sub := some "alice", user_id := some 1 } (some 1800)) =
      .ok (some { username := some "alice", user_id := some 1 }) :=
  ⟨by decide, by decide,
    C1_issue_then_verify "alice" 1 1800 0 0 100 (by decide) (by decide)⟩

/-- C2: a token issued with `ttl = T` and checked after `issue_time + T`
yields the expired outcome (the dedicated 401 "Token has expired", distinct
from the `None` returned for generic invalidity and from the valid case);
and a token whose signature segment was altered (any signature value other
than the correct MAC) is classified as malformed (`None`), never valid, at
every checking time. -/
theorem C2_expired_and_tampered (data : TokenInput) (T tExp tIat now s : Nat)
    (hexp : tExp + T < now)
    (hs : s ≠ (create_access_token tExp tIat data (some T)).sig) :
    verify_token now (create_access_token tExp tIat data (some T)) =
        .error { status := 401, detail := "Token has expired" } ∧
    ∀ m : Nat,
      verify_token m
          { alg := (create_access_token tExp tIat data (some T)).alg,
            payload := (create_access_token tExp tIat data (some T)).payload,
            sig := s } = .ok none := by
  constructor
  · exact verify_token_decode_expired now
      ⟨ALGORITHM, ⟨data.sub, data.user_id, tExp + T, tIat, "access"⟩,
        hs256 SECRET_KEY ⟨data.sub, data.user_id, tExp + T, tIat, "access"⟩⟩
      (jwtDecode_pastExp now ⟨data.sub, data.user_id, tExp + T, tIat, "access"⟩
        (Nat.le_of_lt hexp))
  · intro m
    exact verify_token_decode_invalid m
      ⟨ALGORITHM, ⟨data.sub, data.user_id, tExp + T, tIat, "access"⟩, s⟩
      (jwtDecode_badSig m ⟨data.sub, data.user_id, tExp + T, tIat, "access"⟩ s hs)

set_option maxRecDepth 40000 in
theorem C2_expired_and_tampered_witness :
    (0 : Nat) + 60 < 100 ∧
    (0 : Nat) ≠ (create_access_token 0 0 { sub := some "bob", user_id := some 2 } (some 60)).sig ∧
    verify_token 100 (create_access_token 0 0 { sub := some "bob", user_id := some 2 } (some 60)) =
        .error { status := 401, detail := "Token has expired" } ∧
    verify_token 10
        { alg := (create_access_token 0 0 { sub := some "bob", user_id := some 2 } (some 60)).alg,
          payload := (create_access_token 0 0 { sub := some "bob", user_id := some 2 } (some 60)).payload,
          sig := 0 } = .ok none := by
  refine ⟨by decide, by decide, ?_, ?_⟩
  · exact (C2_expired_and_tampered { sub := some "bob", user_id := some 2 } 60 0 0 100 0
      (by decide) (by decide)).1
  · exact (C2_expired_and_tampered { sub := some "bob", user_id := some 2 } 60 0 0 100 0
      (by decide) (by decide)).2 10

/-- C3: `authenticate_user` returns `None` both when no credential exists
for the username and when a credential exists but password verification
fails; the two failure cases are observationally identical (`None`). -/
theorem C3_authenticate_user_failures (db : DB) (u pw : String) :
    (UserRepository.get_by_username db u = none → authenticate_user db u pw = .ok none) ∧
    ∀ r, UserRepository.get_by_username db u = some r →
      UserRepository.verify_password pw r.hashed_password = .ok false →
      authenticate_user db u pw = .ok none := by
  constructor
  · intro h
    simp [authenticate_user, h]
  · intro r h hv
    simp [authenticate_user, h, hv]

set_option maxRecDepth 40000 in
theorem C3_authenticate_user_failures_witness :
    (UserRepository.get_by_username [] "ghost" = none →
        authenticate_user [] "ghost" "pw" = .ok none) ∧
    authenticate_user [] "ghost" "pw" = .ok none ∧
    authenticate_user
        [⟨1, "alice@example.com", "alice", pwd_context_hash 3 "secret1", true, 0⟩]
        "alice" "wrongpw" = .ok none :=
  ⟨(C3_authenticate_user_failures [] "ghost" "pw").1,
    (C3_authenticate_user_failures [] "ghost" "pw").1 (by decide),
    (C3_authenticate_user_failures
        [⟨1, "alice@example.com", "alice", pwd_context_hash 3 "secret1", true, 0⟩]
        "alice" "wrongpw").2
      ⟨1, "alice@example.com", "alice", pwd_context_hash 3 "secret1", true, 0⟩
      (by decide) (by decide)⟩

/-- C4: verifying a password against its own hash succeeds for every
password, and two hashing calls on the same input (which draw distinct
fresh salts) produce two different digests. -/
theorem C4_hash_roundtrip_and_salted (p : String) (s1 s2 : Nat) (hne : s1 ≠ s2) :
    (∀ salt, UserRepository.verify_password p (pwd_context_hash salt p) = .ok true) ∧
    pwd_context_hash s1 p ≠ pwd_context_hash s2 p :=
  ⟨fun salt => pwd_context_verify_hash salt p, pwd_context_hash_inj_salt p hne⟩

theorem C4_hash_roundtrip_and_salted_witness :
    (0 : Nat) ≠ 1 ∧
    UserRepository.verify_password "secret1" (pwd_context_hash 0 "secret1") = .ok true ∧
    pwd_context_hash 0 "secret1" ≠ pwd_context_hash 1 "secret1" :=
  ⟨by decide,
    (C4_hash_roundtrip_and_salted "secret1" 0 1 (by decide)).1 0,
    (C4_hash_roundtrip_and_salted "secret1" 0 1 (by decide)).2⟩

set_option maxRecDepth 40000 in
/-- C5 counterexample: on the malformed digest "notahash",
`UserRepository.verify_password` propagates passlib's `UnknownHashError`
rather than returning `false` as the claim states. -/
theorem C5_counterexample :
    UserRepository.verify_password "secret1" "notahash" = .error "UnknownHashError" ∧
    UserRepository.verify_password "secret1" "notahash" ≠ .ok false := by
  exact ⟨by decide, by decide⟩

/-- C5 (amended): for every plaintext and digest, `verify_password` returns
a boolean when the digest parses as a configured hash; on a malformed
digest the underlying passlib call raises `UnknownHashError`, which
`UserRepository.verify_password` propagates instead of returning false. -/
theorem C5_verify_password_malformed (p d : String) :
    (parseDigest d.data = none →
        UserRepository.verify_password p d = .error "UnknownHashError") ∧
    (parseDigest d.data ≠ none →
        ∃ b, UserRepository.verify_password p d = .ok b) := by
  constructor
  · intro h
    simp [UserRepository.verify_password, pwd_context_verify, h]
  · intro h
    match hp : parseDigest d.data with
    | none => exact absurd hp h
    | some (salt, hsh) =>
      exact ⟨decide (rawHash salt p = hsh),
        by simp [UserRepository.verify_password, pwd_context_verify, hp]⟩

set_option maxRecDepth 40000 in
theorem C5_verify_password_malformed_witness :
    parseDigest ("notahash" : String).data = none ∧
    UserRepository.verify_password "x" "notahash" = .error "UnknownHashError" ∧
    parseDigest (pwd_context_hash 2 "pw1").data ≠ none ∧
    ∃ b, UserRepository.verify_password "x" (pwd_context_hash 2 "pw1") = .ok b :=
  ⟨by decide,
    (C5_verify_password_malformed "x" "notahash").1 (by decide),
    by decide,
    (C5_verify_password_malformed "x" (pwd_context_hash 2 "pw1")).2 (by decide)⟩

/-! ## Helper lemmas for `get_current_user` -/

theorem verify_token_error_eq (now : Nat) (t : JWT) (e : HTTPException)
    (h : verify_token now t = .error e) : e = ⟨401, "Token has expired"⟩ := by
  delta verify_token at h
  split at h
  · split at h <;> exact Except.noConfusion h
  · injection h with h1
    exact h1.symm
  · exact Except.noConfusion h

theorem get_current_user_of_verify_error (db : DB) (now : Nat) (t : JWT)
    (e : HTTPException) (h : verify_token now t = .error e) :
    get_current_user db now t = .error e := by
  delta get_current_user
  rw [h]

theorem get_current_user_of_verify_none (db : DB) (now : Nat) (t : JWT)
    (h : verify_token now t = .ok none) :
    get_current_user db now t = .error credentials_exception := by
  delta get_current_user
  rw [h]

theorem get_current_user_of_verify_some (db : DB) (now : Nat) (t : JWT)
    (td : TokenData) (h : verify_token now t = .ok (some td)) :
    get_current_user db now t =
      (match td.username with
       | none => .error credentials_exception
       | some username =>
         match UserRepository.get_by_username db username with
         | none => .error credentials_exception
         | some user => .ok user.toUser) := by
  delta get_current_user
  rw [h]

/-- C6: `get_current_user` fails with a 401 Unauthorized error when the
token is expired (the propagated "Token has expired" exception) or invalid
(the credentials exception), fails with the same credentials exception when
the token is valid but the user named by its `sub` claim is no longer in
the store, and returns that user when the lookup succeeds. -/
theorem C6_get_current_user_cases (db : DB) (now : Nat) (t : JWT) :
    (∀ e, verify_token now t = .error e →
        get_current_user db now t = .error e ∧ e.status = 401) ∧
    (verify_token now t = .ok none →
        get_current_user db now t = .error credentials_exception) ∧
    (∀ td u, verify_token now t = .ok (some td) → td.username = some u →
        (UserRepository.get_by_username db u = none →
            get_current_user db now t = .error credentials_exception) ∧
        (∀ r, UserRepository.get_by_username db u = some r →
            get_current_user db now t = .ok r.toUser)) ∧
    credentials_exception.status = 401 := by
  refine ⟨?_, ?_, ?_, rfl⟩
  · intro e he
    refine ⟨get_current_user_of_verify_error db now t e he, ?_⟩
    rw [verify_token_error_eq now t e he]
  · exact get_current_user_of_verify_none db now t
  · intro td u hv hu
    have h3 := get_current_user_of_verify_some db now t td hv
    constructor
    · intro hn
      rw [h3, hu]
      simp [hn]
    · intro r hr
      rw [h3, hu]
      simp [hr]

set_option maxRecDepth 40000 in
theorem C6_get_current_user_cases_witness :
    verify_token 100 (create_access_token 0 0 ⟨some "alice", some 1⟩ (some 60)) =
        .error { status := 401, detail := "Token has expired" } ∧
    get_current_user aliceDB 100 (create_access_token 0 0 ⟨some "alice", some 1⟩ (some 60)) =
        .error { status := 401, detail := "Token has expired" } ∧
    get_current_user aliceDB 100 (create_access_token 0 0 ⟨some "alice", some 1⟩ (some 1800)) =
        .ok ⟨1, "alice@example.com", "alice", true, 0⟩ ∧
    get_current_user [] 100 (create_access_token 0 0 ⟨some "alice", some 1⟩ (some 1800)) =
        .error credentials_exception :=
  ⟨by decide,
    ((C6_get_current_user_cases aliceDB 100
        (create_access_token 0 0 ⟨some "alice", some 1⟩ (some 60))).1
      { status := 401, detail := "Token has expired" } (by decide)).1,
    (((C6_get_current_user_cases aliceDB 100
        (create_access_token 0 0 ⟨some "alice", some 1⟩ (some 1800))).2.2.1
      ⟨some "alice", some 1⟩ "alice" (by decide) rfl).2
      ⟨1, "alice@example.com", "alice", pwd_context_hash 3 "secret1", true, 0⟩ (by decide)),
    (((C6_get_current_user_cases [] 100
        (create_access_token 0 0 ⟨some "alice", some 1⟩ (some 1800))).2.2.1
      ⟨some "alice", some 1⟩ "alice" (by decide) rfl).1 (by decide))⟩

/-- C7 (amended): on a successful login, `exp - iat` equals the 30-minute
default (1800 seconds) whenever the two `utcnow()` readings inside
`create_access_token` fall in the same second; the readings are two
separate clock calls, so in general the difference is `1800` minus the
seconds elapsed between them (see the counterexample). -/
theorem C7_token_lifetime (db : DB) (t : Nat) (u p : String) (tok : Token)
    (h : login_for_access_token db t t u p = .ok tok) :
    tok.access_token.payload.exp - tok.access_token.payload.iat = 1800 := by
  delta login_for_access_token at h
  split at h
  · exact Except.noConfusion h
  · exact Except.noConfusion h
  · split at h
    · exact Except.noConfusion h
    · injection h with h1
      rw [← h1]
      show t + 1800 - t = 1800
      omega

set_option maxRecDepth 40000 in
theorem C7_token_lifetime_witness :
    login_for_access_token aliceDB 5 5 "alice" "secret1" =
      .ok { access_token := create_access_token 5 5 ⟨some "alice", some 1⟩ (some 1800),
            token_type := "bearer", expires_in := 1800 } ∧
    (create_access_token 5 5 ⟨some "alice", some 1⟩ (some 1800)).payload.exp -
      (create_access_token 5 5 ⟨some "alice", some 1⟩ (some 1800)).payload.iat = 1800 :=
  ⟨by decide,
    C7_token_lifetime aliceDB 5 "alice" "secret1"
      { access_token := create_access_token 5 5 ⟨some "alice", some 1⟩ (some 1800),
        token_type := "bearer", expires_in := 1800 } (by decide)⟩

set_option maxRecDepth 40000 in
/-- C7 counterexample: with the two `utcnow()` readings one second apart
(`expire` computed at second 0, `iat` read at second 1), a successful login
returns a token with `exp - iat = 1799`, not `1800`: the claimed equality
is not an invariant of the code, only of runs where both readings fall in
the same second. -/
theorem C7_counterexample :
    login_for_access_token aliceDB 0 1 "alice" "secret1" =
      .ok { access_token := create_access_token 0 1 ⟨some "alice", some 1⟩ (some 1800),
            token_type := "bearer", expires_in := 1800 } ∧
    (create_access_token 0 1 ⟨some "alice", some 1⟩ (some 1800)).payload.exp -
      (create_access_token 0 1 ⟨some "alice", some 1⟩ (some 1800)).payload.iat = 1799 ∧
    (create_access_token 0 1 ⟨some "alice", some 1⟩ (some 1800)).payload.exp -
      (create_access_token 0 1 ⟨some "alice", some 1⟩ (some 1800)).payload.iat ≠ 1800 :=
  ⟨by decide, by decide, by decide⟩

set_option maxRecDepth 40000 in
/-- C8: the code evaluated at the failing input.  When the duplicate
username is only present in the table at INSERT time (`dbCheck = []` but
`dbInsert` already contains `alice` — the concurrent-registration window),
`register_user` returns HTTP 500 "Error creating user" (the catch-all
`except` around the insert), not the user-facing 400 "already registered"
that the pre-check path produces; the spec requires the duplicate-key
failure to surface as "already registered". -/
theorem C8_insert_time_duplicate_gives_500 :
    register_user [] aliceDB "alice@other.com" "alice" "secret2" 4 2 0 =
      .error { status := 500, detail := "Error creating user" } ∧
    register_user aliceDB aliceDB "alice@other.com" "alice" "secret2" 4 2 0 =
      .error { status := 400, detail := "Username already registered" } :=
  ⟨by decide, by decide⟩

/-! ## Helper lemmas for C9 -/

theorem toLower_ne_of_isUpper {c : Char} (h : c.isUpper = true) :
    Char.toLower c ≠ c := by
  have hv : 65 ≤ c.val.toNat ∧ c.val.toNat ≤ 90 := by
    simp [Char.isUpper] at h
    exact ⟨h.1, h.2⟩
  intro hEq
  have hvalid : (c.toNat + 32).isValidChar := by
    left
    have := hv.2
    simp [Char.toNat] at *
    omega
  have ht : (Char.toLower c).toNat = c.toNat + 32 := by
    unfold Char.toLower
    rw [if_pos]
    · rw [Char.ofNat, dif_pos hvalid]
      simp [Char.ofNatAux, Char.toNat, UInt32.toNat]
    · exact ⟨hv.1, hv.2⟩
  rw [hEq] at ht
  omega

theorem map_toLower_fixes : ∀ (l : List Char), l.map Char.toLower = l →
    ∀ x ∈ l, Char.toLower x = x := by
  intro l
  induction l with
  | nil =>
    intro _ x hx
    exact absurd hx (List.not_mem_nil x)
  | cons a as ih =>
    intro h x hx
    rw [List.map_cons] at h
    injection h with h1 h2
    rcases List.mem_cons.mp hx with rfl | hx2
    · exact h1
    · exact ih h2 x hx2

theorem str_lower_ne_of_upper {u : String} {c : Char} (hc : c ∈ u.data)
    (hup : c.isUpper = true) : str_lower u ≠ u := by
  intro hEq
  have hdata : u.data.map Char.toLower = u.data := congrArg String.data hEq
  exact toLower_ne_of_isUpper hup (map_toLower_fixes u.data hdata c hc)

/-- C9: registration lowercases the username (`validate_username` rejects
non-alphanumeric input and stores the lowercased form), so for a user whose
registered username came from a mixed-case input, `authenticate_user` with
the original mixed-case username returns `None` while the lowercased form
succeeds with the correct password. -/
theorem C9_lowercased_username (u pw em v : String) (s ca : Nat) (id : Int)
    (c : Char) (hc : c ∈ u.data) (hup : c.isUpper = true)
    (hval : validate_username u = some v) :
    authenticate_user [⟨id, em, v, pwd_context_hash s pw, true, ca⟩] u pw = .ok none ∧
    authenticate_user [⟨id, em, v, pwd_context_hash s pw, true, ca⟩] (str_lower u) pw =
      .ok (some ⟨id, em, v, pwd_context_hash s pw, true, ca⟩) := by
  have hv : v = str_lower u := by
    delta validate_username at hval
    split at hval
    · injection hval with h1
      exact h1.symm
    · exact Option.noConfusion hval
  subst hv
  have hne : str_lower u ≠ u := str_lower_ne_of_upper hc hup
  have hbeq : (str_lower u == u) = false := beq_eq_false_iff_ne.mpr hne
  constructor
  · have hfind : UserRepository.get_by_username
        [⟨id, em, str_lower u, pwd_context_hash s pw, true, ca⟩] u = none := by
      simp [UserRepository.get_by_username, List.find?, hbeq]
    simp [authenticate_user, hfind]
  · have hfind : UserRepository.get_by_username
        [⟨id, em, str_lower u, pwd_context_hash s pw, true, ca⟩] (str_lower u) =
        some ⟨id, em, str_lower u, pwd_context_hash s pw, true, ca⟩ := by
      simp [UserRepository.get_by_username, List.find?]
    simp [authenticate_user, hfind, UserRepository.verify_password,
      pwd_context_verify_hash]

set_option maxRecDepth 40000 in
theorem C9_lowercased_username_witness :
    'A' ∈ ("Alice5" : String).data ∧ 'A'.isUpper = true ∧
    validate_username "Alice5" = some "alice5" ∧
    authenticate_user
        [⟨1, "alice@example.com", "alice5", pwd_context_hash 7 "secret1", true, 0⟩]
        "Alice5" "secret1" = .ok none ∧
    authenticate_user
        [⟨1, "alice@example.com", "alice5", pwd_context_hash 7 "secret1", true, 0⟩]
        (str_lower "Alice5") "secret1" =
      .ok (some ⟨1, "alice@example.com", "alice5", pwd_context_hash 7 "secret1", true, 0⟩) :=
  ⟨by decide, by decide, by decide,
    (C9_lowercased_username "Alice5" "secret1" "alice@example.com" "alice5" 7 0 1 'A'
      (by decide) (by decide) (by decide)).1,
    (C9_lowercased_username "Alice5" "secret1" "alice@example.com" "alice5" 7 0 1 'A'
      (by decide) (by decide) (by decide)).2⟩

/-- C10: `get_optional_current_user` never propagates an authentication
failure: without a token it returns `None`, and with one it returns exactly
the optional projection of `get_current_user` — the user on success and
`None` on every `HTTPException`. -/
theorem C10_optional_user (db : DB) (now : Nat) :
    get_optional_current_user db now none = none ∧
    ∀ t : JWT, get_optional_current_user db now (some t) =
      (get_current_user db now t).toOption := by
  constructor
  · rfl
  · intro t
    show (match get_current_user db now t with
          | .error _ => none
          | .ok u => some u) = (get_current_user db now t).toOption
    cases get_current_user db now t <;> rfl
